import Mathlib

/-!
Verification of the attendance-calculator repository (`src/App.jsx`, plus the
older variant of the same component embedded in `README.md`).

The JavaScript source is shallowly embedded:
* JS numbers holding integer day counts are `Nat`/`Int`; fractional arithmetic
  (percentages) is `ℚ`; values that can be `NaN` (results of `parseFloat` on
  user text) are `Option ℚ` with `none` for `NaN`.
* `Date` weekday queries are embedded by Zeller's congruence for the Gregorian
  calendar, which is what the JS `Date` implements for the years in scope; the
  `getDay` convention (0 = Sunday .. 6 = Saturday) is kept.
* An ISO-8601 timestamp is embedded as a pair (calendar year, instant within
  the year), which is in order-preserving bijection with the instant and
  supports both operations the source performs on timestamps: `getFullYear`
  and numeric comparison.
* React `useState` fields become a record `AppState`; each handler becomes a
  function `AppState → ... → AppState`; `localStorage` becomes the `storage`
  field holding the serialized JSON value; `new Date()` instants, fresh
  `crypto.randomUUID()` identifiers and the current-month form label are
  passed as explicit parameters.
* `JSON.stringify` / `JSON.parse` become `encodeRecords` / `decodeRecords`
  over an inductive `Json` value type.
* String helpers used by the source (`toLowerCase`, `trim`, `split(' ')`,
  `parseInt`) are embedded as executable functions over character lists.
-/

/-! ## Working-day calculator (`calculateMonthlyWorkingDays`, App.jsx lines 4-30) -/

/-- Gregorian leap-year rule, as implemented by the JS `Date` object. -/
def isLeapYear (year : Nat) : Bool :=
  (year % 4 == 0 && year % 100 != 0) || year % 400 == 0

/-- Number of days in a month (1-12) of a year; embeds
`new Date(year, month, 0).getDate()`. -/
def daysInMonth (month year : Nat) : Nat :=
  if month = 2 then (if isLeapYear year then 29 else 28)
  else if month = 4 ∨ month = 6 ∨ month = 9 ∨ month = 11 then 30 else 31

/-- Weekday of a Gregorian date in the JS `getDay` convention
(0 = Sunday, ..., 6 = Saturday), via Zeller's congruence; embeds
`new Date(year, month - 1, day).getDay()`. -/
def dayOfWeek (year month day : Nat) : Nat :=
  let m := if month ≤ 2 then month + 12 else month
  let yy := if month ≤ 2 then year - 1 else year
  let K := yy % 100
  let J := yy / 100
  (day + 13 * (m + 1) / 5 + K + K / 4 + J / 4 + 5 * J + 6) % 7

/-- State of the day loop of `calculateMonthlyWorkingDays` after the first `n`
days of the month: `(nonWorkingDays, saturdayCount, secondSaturdayFound)`.
Mirrors the `for` loop of App.jsx lines 12-25 day by day. -/
def wdLoopGo (month year : Nat) : Nat → Nat × Nat × Bool
  | 0 => (0, 0, false)
  | n + 1 =>
    let s := wdLoopGo month year n
    let w := dayOfWeek year month (n + 1)
    if w = 0 then (s.1 + 1, s.2.1, s.2.2)
    else if w = 6 then
      let sc := s.2.1 + 1
      if sc = 2 ∧ s.2.2 = false then (s.1 + 1, sc, true) else (s.1, sc, s.2.2)
    else s

/-- App.jsx lines 4-30: total working days of a month = days in the month
minus the non-working days counted by the loop minus the extra holidays,
floored at 0 (`totalCalculatedWorkingDays > 0 ? totalCalculatedWorkingDays : 0`). -/
def calculateMonthlyWorkingDays (month year : Nat) (extraHolidaysCount : Nat) : Int :=
  let totalDaysInMonth := daysInMonth month year
  let nonWorkingDays := (wdLoopGo month year totalDaysInMonth).1
  let t : Int := (totalDaysInMonth : Int) - nonWorkingDays - extraHolidaysCount
  if 0 < t then t else 0

/-- Number of Sundays among the first `n` days of a month (spec-side notion
used by the claims about the calculator). -/
def sundaysGo (month year : Nat) : Nat → Nat
  | 0 => 0
  | n + 1 => sundaysGo month year n + (if dayOfWeek year month (n + 1) = 0 then 1 else 0)

/-- Number of Sundays in a month. -/
def sundaysIn (month year : Nat) : Nat := sundaysGo month year (daysInMonth month year)

/-- Number of Saturdays among the first `n` days of a month. -/
def saturdaysGo (month year : Nat) : Nat → Nat
  | 0 => 0
  | n + 1 => saturdaysGo month year n + (if dayOfWeek year month (n + 1) = 6 then 1 else 0)

/-- Whether the month has a second Saturday (it always does, since every month
has at least 28 days, but the claims phrase the formula conditionally). -/
def secondSaturdayExists (month year : Nat) : Bool :=
  2 ≤ saturdaysGo month year (daysInMonth month year)

/-- The day loop of the calculator expressed over the weekday `w1` of the
first of the month alone: day `n + 1` falls on weekday `(w1 + n) % 7`. Used
to reduce the claims about the calculator to the finitely many combinations
of month length and first weekday. -/
def wdLoopGoW (w1 : Nat) : Nat → Nat × Nat × Bool
  | 0 => (0, 0, false)
  | n + 1 =>
    let s := wdLoopGoW w1 n
    let w := (w1 + n) % 7
    if w = 0 then (s.1 + 1, s.2.1, s.2.2)
    else if w = 6 then
      let sc := s.2.1 + 1
      if sc = 2 ∧ s.2.2 = false then (s.1 + 1, sc, true) else (s.1, sc, s.2.2)
    else s

/-- Sunday count over the first `n` days, by first weekday alone. -/
def sundaysGoW (w1 : Nat) : Nat → Nat
  | 0 => 0
  | n + 1 => sundaysGoW w1 n + (if (w1 + n) % 7 = 0 then 1 else 0)

/-- Saturday count over the first `n` days, by first weekday alone. -/
def saturdaysGoW (w1 : Nat) : Nat → Nat
  | 0 => 0
  | n + 1 => saturdaysGoW w1 n + (if (w1 + n) % 7 = 6 then 1 else 0)

/-! ## Period parser (`parsePeriodName` and its use site, App.jsx lines 76-152) -/

/-- Characters matched by the `\s` class of the JS regex (those relevant to
period labels). -/
def isJsSpace (c : Char) : Bool :=
  c.toNat == 9 || c.toNat == 10 || c.toNat == 11 || c.toNat == 12 ||
    c.toNat == 13 || c.toNat == 32 || c.toNat == 160

/-- Embeds `s.toLowerCase()` (ASCII letters, which is all the regex needs). -/
def jsToLower (s : String) : List Char := s.data.map Char.toLower

/-- Embeds JS `s.trim()`: strips leading and trailing whitespace. -/
def jsTrim (s : String) : String :=
  String.mk (((s.data.dropWhile isJsSpace).reverse.dropWhile isJsSpace).reverse)

def splitOnSpaceGo : List Char → List Char → List String
  | [], acc => [String.mk acc.reverse]
  | c :: cs, acc =>
    if c = ' ' then String.mk acc.reverse :: splitOnSpaceGo cs []
    else splitOnSpaceGo cs (c :: acc)

/-- Embeds JS `s.split(' ')`. -/
def jsSplitOnSpace (s : String) : List String := splitOnSpaceGo s.data []

/-- The `monthNames` array of App.jsx lines 92-105. -/
def monthNames : List String :=
  ["january", "february", "march", "april", "may", "june",
   "july", "august", "september", "october", "november", "december"]

/-- The `shortMonthNames` array of App.jsx lines 106-119. -/
def shortMonthNames : List String :=
  ["jan", "feb", "mar", "apr", "may", "jun",
   "jul", "aug", "sep", "oct", "nov", "dec"]

/-- Alternatives of the regex group
`(january|february|...|december|jan|feb|...|dec)`, in the order the JS
engine tries them. -/
def monthTokens : List String :=
  ["january", "february", "march", "april", "may", "june",
   "july", "august", "september", "october", "november", "december",
   "jan", "feb", "mar", "apr", "may", "jun",
   "jul", "aug", "sep", "oct", "nov", "dec"]

/-- Matches the rest of the regex, `\s*(\d{4})?$`, against the characters after
the month token: `none` on failure, `some none` when the year group captured
nothing, `some (some ds)` when it captured the four digit characters `ds`. -/
def matchTail (cs : List Char) : Option (Option (List Char)) :=
  let r := cs.dropWhile isJsSpace
  if r = [] then some none
  else if r.length = 4 ∧ r.all Char.isDigit then some (some r) else none

/-- Attempts one alternative of the regex: the token must be a prefix of the
lower-cased input and the rest must match `\s*(\d{4})?$`. -/
def tryToken (t : String) (cs : List Char) : Option (String × Option (List Char)) :=
  if t.data.isPrefixOf cs then (matchTail (cs.drop t.data.length)).map (fun y => (t, y))
  else none

/-- The whole anchored regex match
`^(january|...|dec)\s*(\d{4})?$` on the lower-cased period name; the JS
engine tries the alternatives left to right. -/
def findPeriodMatch (cs : List Char) : Option (String × Option (List Char)) :=
  monthTokens.findSome? (fun t => tryToken t cs)

/-- Numeric value of a digit string (`parseInt` applied to the `\d{4}` capture). -/
def parseDigits (ds : List Char) : Nat :=
  ds.foldl (fun n c => n * 10 + (c.toNat - 48)) 0

/-- JS `list.indexOf(x) + 1`: the position of `x` counted from 1, and 0 when
absent (`indexOf` returns -1). -/
def indexFrom1 (x : String) : List String → Nat
  | [] => 0
  | y :: ys => if y = x then 1 else (let r := indexFrom1 x ys; if r = 0 then 0 else r + 1)

/-- App.jsx lines 121-124: the matched token is looked up in `monthNames`
first and in `shortMonthNames` when that fails. -/
def codeMonth (t : String) : Nat :=
  let m1 := indexFrom1 t monthNames
  if m1 = 0 then indexFrom1 t shortMonthNames else m1

/-- Result of `parsePeriodName`: `month` is `none` when the regex did not
match (JS `null`); `year` is the captured year or the current year. -/
structure ParsedPeriod where
  month : Option Nat
  year : Nat
deriving DecidableEq

/-- App.jsx lines 77-132. -/
def parsePeriodName (name : String) (currentYear : Nat) : ParsedPeriod :=
  match findPeriodMatch (jsToLower name) with
  | none => { month := none, year := currentYear }
  | some (monthString, yearString) =>
    let year := match yearString with
      | some ds => parseDigits ds
      | none => currentYear
    { month := some (codeMonth monthString), year := year }

/-- The validity test of App.jsx lines 137-142: `some (month, year)` when the
parsed period passes the month-range and year-range check, `none` (surfacing as
`totalWorkingDays = 0` rather than an exception) otherwise. -/
def parsePeriod (name : String) (currentYear : Nat) : Option (Nat × Nat) :=
  let parsed := parsePeriodName name currentYear
  match parsed.month with
  | some m =>
    if 0 < m ∧ m ≤ 12 ∧ 1900 ≤ parsed.year ∧ parsed.year ≤ 2100 then
      some (m, parsed.year)
    else none
  | none => none

/-- The year a parse resolves to: the captured 4-digit year when present, the
current year otherwise (spec-side notion for the parser claims). -/
def resolvedYear (name : String) (currentYear : Nat) : Nat :=
  match findPeriodMatch (jsToLower name) with
  | some (_, some ds) => parseDigits ds
  | _ => currentYear

/-- App.jsx lines 134-152: the effect that recomputes `totalWorkingDays` from
the period name and the extra holidays; an invalid period yields 0. -/
def recomputeTotalWorkingDays (periodName : String) (extraHolidays : Option Nat)
    (currentYear : Nat) : Int :=
  let numExtraHolidays := extraHolidays.getD 0
  match parsePeriod periodName currentYear with
  | some (m, y) => calculateMonthlyWorkingDays m y numExtraHolidays
  | none => 0

/-! ## Attendance arithmetic (`calculateAttendance`, App.jsx lines 154-189) -/

/-- JS `x.toFixed(2)` rounding: the value rounded to two decimals, half
toward positive infinity. -/
def round2 (q : ℚ) : ℚ := (round (q * 100) : ℚ) / 100

inductive AttendanceError where
  | totalNotPositive : AttendanceError
  | attendedInvalid : AttendanceError
  | attendedExceedsTotal : AttendanceError
deriving DecidableEq

/-- Pure validation-and-percentage core of `calculateAttendance` (App.jsx
lines 154-189): the three guards in source order, then the rounded
percentage. -/
def computePercentage (total : ℚ) (attended : Option ℚ) : Except AttendanceError ℚ :=
  if total ≤ 0 then .error .totalNotPositive
  else
    match attended with
    | none => .error .attendedInvalid
    | some a =>
      if a < 0 then .error .attendedInvalid
      else if total < a then .error .attendedExceedsTotal
      else .ok (round2 (a / total * 100))

/-- The user-facing message of each validation failure, from the source. -/
def attendanceErrorText : AttendanceError → String
  | .totalNotPositive => "Total working days must be greater than zero. Please ensure the period name is valid and there are no excessive extra holidays."
  | .attendedInvalid => "Please enter a non-negative number for days attended."
  | .attendedExceedsTotal => "Days attended cannot exceed total working days."

/-! ## Sorting (`array.sort((a, b) => keyB - keyA)`) -/

/-- Strict lexicographic order on pairs of integers, the comparison behind the
numeric sort comparators of the source. -/
def lexLtB (a b : Int × Int) : Bool :=
  decide (a.1 < b.1 ∨ (a.1 = b.1 ∧ a.2 < b.2))

/-- Stable insertion into a list sorted descending by `key`: the new element
goes after every element whose key is greater than or equal to its own, which
is where a JS stable `sort` leaves it. -/
def insertDescBy {α : Type} (key : α → Int × Int) (x : α) : List α → List α
  | [] => [x]
  | y :: ys => if lexLtB (key y) (key x) then x :: y :: ys else y :: insertDescBy key x ys

/-- Stable sort, descending by `key`; embeds `array.sort((a, b) => keyB - keyA)`. -/
def sortDescBy {α : Type} (key : α → Int × Int) : List α → List α
  | [] => []
  | x :: xs => insertDescBy key x (sortDescBy key xs)

/-- A list is sorted descending by `key` when no later element has a strictly
greater key than an earlier one. -/
def DescSortedBy {α : Type} (key : α → Int × Int) (l : List α) : Prop :=
  List.Pairwise (fun a b => lexLtB (key a) (key b) = false) l

def descSortedByDec {α : Type} (key : α → Int × Int) :
    (l : List α) → Decidable (DescSortedBy key l)
  | [] => isTrue List.Pairwise.nil
  | x :: xs =>
    match List.decidableBAll (fun y => lexLtB (key x) (key y) = false) xs,
        descSortedByDec key xs with
    | isTrue h1, isTrue h2 => isTrue (List.pairwise_cons.mpr ⟨h1, h2⟩)
    | isFalse h1, _ => isFalse (fun hp => h1 (List.pairwise_cons.mp hp).1)
    | _, isFalse h2 => isFalse (fun hp => h2 (List.pairwise_cons.mp hp).2)

instance {α : Type} (key : α → Int × Int) (l : List α) : Decidable (DescSortedBy key l) :=
  descSortedByDec key l

/-! ## Records, timestamps and persistence -/

/-- Timestamp of a record: the ISO-8601 string stored by the source is
embedded as the pair (calendar year, instant within that year), which is in
order-preserving bijection with the instant; `getFullYear` is the first
component and the numeric comparison `Date(b) - Date(a)` is the
lexicographic comparison on the pair. -/
structure Timestamp where
  year : Nat
  sub : Nat
deriving DecidableEq

def tsKey (t : Timestamp) : Int × Int := ((t.year : Int), (t.sub : Int))

/-- The persisted entity (`recordData` of App.jsx lines 215-223); every JS
number field is a `ℚ`. -/
structure AttendanceRecord where
  periodName : String
  totalWorkingDays : ℚ
  daysAttended : ℚ
  extraHolidays : ℚ
  attendancePercentage : ℚ
  timestamp : Timestamp
  id : String
deriving DecidableEq

/-- Sort key of the App.jsx comparator
`(a, b) => new Date(b.timestamp) - new Date(a.timestamp)`. -/
def tsKeyR (r : AttendanceRecord) : Int × Int := tsKey r.timestamp

/-- JSON values, the codomain of `JSON.stringify`. -/
inductive Json where
  | str : String → Json
  | num : ℚ → Json
  | arr : List Json → Json
  | obj : List (String × Json) → Json

def encodeTimestamp (t : Timestamp) : Json := .arr [.num t.year, .num t.sub]

def encodeRecord (r : AttendanceRecord) : Json :=
  .obj [("periodName", .str r.periodName),
        ("totalWorkingDays", .num r.totalWorkingDays),
        ("daysAttended", .num r.daysAttended),
        ("extraHolidays", .num r.extraHolidays),
        ("attendancePercentage", .num r.attendancePercentage),
        ("timestamp", encodeTimestamp r.timestamp),
        ("id", .str r.id)]

/-- Embeds `JSON.stringify(updatedRecords)` as written to `localStorage`. -/
def encodeRecords (rs : List AttendanceRecord) : Json := .arr (rs.map encodeRecord)

def lookupField : List (String × Json) → String → Option Json
  | [], _ => none
  | (k, v) :: fs, key => if k = key then some v else lookupField fs key

def asNat (j : Json) : Option Nat :=
  match j with
  | .num q => if q.den = 1 ∧ 0 ≤ q.num then some q.num.toNat else none
  | _ => none

def decodeTimestamp : Json → Option Timestamp
  | .arr [jy, js] =>
    match asNat jy, asNat js with
    | some y, some s => some ⟨y, s⟩
    | _, _ => none
  | _ => none

def decodeRecord (j : Json) : Option AttendanceRecord :=
  match j with
  | .obj fields =>
    match lookupField fields "periodName", lookupField fields "totalWorkingDays",
          lookupField fields "daysAttended", lookupField fields "extraHolidays",
          lookupField fields "attendancePercentage", lookupField fields "timestamp",
          lookupField fields "id" with
    | some (.str p), some (.num tw), some (.num da), some (.num eh), some (.num ap),
        some jt, some (.str i) =>
      match decodeTimestamp jt with
      | some ts => some ⟨p, tw, da, eh, ap, ts, i⟩
      | none => none
    | _, _, _, _, _, _, _ => none
  | _ => none

/-- Embeds `JSON.parse` of the stored record array, as consumed by the load
effect of App.jsx lines 54-64 (which uses the parsed objects directly). -/
def decodeRecords (j : Json) : Option (List AttendanceRecord) :=
  match j with
  | .arr xs => xs.mapM decodeRecord
  | _ => none

/-! ## Period-name sort key of the README.md variant (lines 81-107) -/

def takeDigitsVal : List Char → Nat → Nat
  | [], acc => acc
  | c :: cs, acc => if c.isDigit then takeDigitsVal cs (acc * 10 + (c.toNat - 48)) else acc

/-- Embeds JS `parseInt(s, 10)`: optional leading whitespace and sign followed
by leading decimal digits; `none` is `NaN`. -/
def jsParseInt (s : String) : Option Int :=
  match s.data.dropWhile isJsSpace with
  | '-' :: c :: cs =>
    if c.isDigit then some (-(takeDigitsVal (c :: cs) 0 : Int)) else none
  | '+' :: c :: cs =>
    if c.isDigit then some ((takeDigitsVal (c :: cs) 0 : Int)) else none
  | c :: cs => if c.isDigit then some ((takeDigitsVal (c :: cs) 0 : Int)) else none
  | [] => none

/-- The `monthMap` object of README.md lines 90-95 (a duplicate JS key such as
the repeated full-name spellings keeps its value, so one entry per key
suffices). -/
def monthMap : List (String × Nat) :=
  [("january", 0), ("february", 1), ("march", 2), ("april", 3), ("may", 4), ("june", 5),
   ("july", 6), ("august", 7), ("september", 8), ("october", 9), ("november", 10),
   ("december", 11),
   ("jan", 0), ("feb", 1), ("mar", 2), ("apr", 3), ("jun", 5),
   ("jul", 6), ("aug", 7), ("sep", 8), ("oct", 9), ("nov", 10), ("dec", 11)]

def lookupMonthMap : List (String × Nat) → String → Option Nat
  | [], _ => none
  | (k, v) :: fs, key => if k = key then some v else lookupMonthMap fs key

/-- README.md lines 81-107: parses a period name into the sort key used by the
README variant. The key is the pair (year, month index) representing
`new Date(year, monthIndex, 1).getTime()`; an unparseable name maps to
`new Date(0)`, the epoch, i.e. (1970, 0); and the `Date` constructor maps a
year in [0, 99] to 1900 + year. -/
def parsePeriodNameToSortableDate (periodName : String) : Int × Int :=
  match jsSplitOnSpace periodName with
  | p0 :: p1 :: _ =>
    match lookupMonthMap monthMap (String.mk (jsToLower p0)), jsParseInt p1 with
    | some monthIndex, some year =>
      ((if 0 ≤ year ∧ year ≤ 99 then 1900 + year else year), (monthIndex : Int))
    | _, _ => (1970, 0)
  | _ => (1970, 0)

def periodSortKeyR (r : AttendanceRecord) : Int × Int :=
  parsePeriodNameToSortableDate r.periodName

/-! ## Application state and handlers -/

inductive MsgKind where
  | success : MsgKind
  | error : MsgKind
deriving DecidableEq

/-- The `useState` fields of the component that the core logic touches. -/
structure AppState where
  periodName : String
  totalWorkingDays : ℚ
  daysAttended : Option ℚ
  extraHolidays : Option Nat
  attendancePercentage : Option ℚ
  attendanceRecords : List AttendanceRecord
  editingRecordId : Option String
  recordToDelete : Option AttendanceRecord
  showDeleteConfirm : Bool
  message : Option String
  messageType : Option MsgKind
  showAttendanceDisplayInButton : Bool
  storage : Option Json

/-- App.jsx lines 154-189 as a state transition: a validation failure posts
the error message and clears the percentage; success stores the percentage. -/
def calculateAttendance (st : AppState) : AppState :=
  match computePercentage st.totalWorkingDays st.daysAttended with
  | .error e =>
    { st with message := some (attendanceErrorText e), messageType := some .error,
              attendancePercentage := none, showAttendanceDisplayInButton := false }
  | .ok p =>
    { st with attendancePercentage := some p, message := none, messageType := none,
              showAttendanceDisplayInButton := true }

/-- The early-return state of `saveOrUpdateAttendance` on invalid inputs
(App.jsx lines 195-209). -/
def saveErrorState (st : AppState) : AppState :=
  { st with message := some "Please ensure all fields are correctly filled before saving/updating.",
            messageType := some .error,
            showAttendanceDisplayInButton := false,
            attendancePercentage := none }

/-- Common body of `saveOrUpdateAttendance` in the two source variants, which
differ only in the sort key applied to the record list. -/
def saveOrUpdateCore (sortKey : AttendanceRecord → Int × Int) (st : AppState)
    (now : Timestamp) (freshId : String) (todayLabel : String) : AppState :=
  match st.daysAttended with
  | none => saveErrorState st
  | some attended =>
    if st.totalWorkingDays ≤ 0 ∨ attended < 0 ∨ st.totalWorkingDays < attended ∨
        jsTrim st.periodName = "" then
      saveErrorState st
    else
      let total := st.totalWorkingDays
      let percentage := attended / total * 100
      let recordData : AttendanceRecord :=
        { periodName := jsTrim st.periodName,
          totalWorkingDays := total,
          daysAttended := attended,
          extraHolidays := ((st.extraHolidays.getD 0 : Nat) : ℚ),
          attendancePercentage := round2 percentage,
          timestamp := now,
          id := st.editingRecordId.getD freshId }
      match st.editingRecordId with
      | some editingRecordId =>
        let updatedRecords := sortDescBy sortKey
          (st.attendanceRecords.map
            (fun rec => if rec.id = editingRecordId then recordData else rec))
        { st with attendanceRecords := updatedRecords,
                  storage := some (encodeRecords updatedRecords),
                  attendancePercentage := some (round2 percentage),
                  showAttendanceDisplayInButton := true,
                  message := some "Record updated successfully!",
                  messageType := some .success }
      | none =>
        let updatedRecords := sortDescBy sortKey (recordData :: st.attendanceRecords)
        { st with attendanceRecords := updatedRecords,
                  storage := some (encodeRecords updatedRecords),
                  attendancePercentage := none,
                  showAttendanceDisplayInButton := false,
                  message := some "Record saved successfully!",
                  messageType := some .success,
                  periodName := todayLabel,
                  daysAttended := none,
                  extraHolidays := none }

/-- App.jsx lines 191-251: create/update; the list is re-sorted by timestamp,
descending. -/
def saveOrUpdateAttendance (st : AppState) (now : Timestamp) (freshId todayLabel : String) :
    AppState :=
  saveOrUpdateCore tsKeyR st now freshId todayLabel

/-- README.md lines 277-340: the same handler in the README variant; the list
is re-sorted by the period-name key, descending. -/
def saveOrUpdateAttendanceReadme (st : AppState) (now : Timestamp)
    (freshId todayLabel : String) : AppState :=
  saveOrUpdateCore periodSortKeyR st now freshId todayLabel

/-- App.jsx lines 292-305. -/
def handleBackToMain (st : AppState) (todayLabel : String) : AppState :=
  { st with editingRecordId := none,
            daysAttended := none,
            extraHolidays := none,
            attendancePercentage := none,
            showAttendanceDisplayInButton := false,
            message := none,
            messageType := none,
            periodName := todayLabel }

/-- App.jsx lines 259-274: confirmed delete; filters the record out and
persists, without re-sorting. -/
def confirmDelete (st : AppState) (todayLabel : String) : AppState :=
  match st.recordToDelete with
  | none => st
  | some recordToDelete =>
    let updatedRecords := st.attendanceRecords.filter (fun rec => rec.id ≠ recordToDelete.id)
    let st1 := { st with attendanceRecords := updatedRecords,
                         storage := some (encodeRecords updatedRecords),
                         message := some "Record deleted successfully!",
                         messageType := some .success,
                         showDeleteConfirm := false,
                         recordToDelete := none }
    if st.editingRecordId = some recordToDelete.id then handleBackToMain st1 todayLabel else st1

/-- README.md lines 414-493: the +1 button handler; a blocked increment
returns before any state field is written. -/
def handlePlusOne (st : AppState) (now : Timestamp) (freshId : String) : AppState :=
  let currentDaysAttended : ℚ := match st.daysAttended with | some a => a | none => 0
  let newDaysAttended := currentDaysAttended + 1
  if st.totalWorkingDays < newDaysAttended then
    { st with message := some "Cannot add attendance: Days attended would exceed total working days.",
              messageType := some .error }
  else
    let st1 := { st with daysAttended := some newDaysAttended,
                         showAttendanceDisplayInButton := false,
                         attendancePercentage := none }
    let total := st.totalWorkingDays
    let attended := newDaysAttended
    if total ≤ 0 ∨ attended < 0 ∨ total < attended ∨ jsTrim st.periodName = "" then
      { st1 with message := some "Invalid data for auto-save. Please check inputs.",
                 messageType := some .error }
    else
      let percentage := attended / total * 100
      let tempRecordData : AttendanceRecord :=
        { periodName := jsTrim st.periodName,
          totalWorkingDays := total,
          daysAttended := newDaysAttended,
          extraHolidays := ((st.extraHolidays.getD 0 : Nat) : ℚ),
          attendancePercentage := round2 percentage,
          timestamp := now,
          id := st.editingRecordId.getD freshId }
      match st.editingRecordId with
      | some editingRecordId =>
        let updatedRecords := sortDescBy periodSortKeyR
          (st1.attendanceRecords.map
            (fun rec => if rec.id = editingRecordId then tempRecordData else rec))
        { st1 with attendanceRecords := updatedRecords,
                   storage := some (encodeRecords updatedRecords),
                   message := some "Attendance updated successfully!",
                   messageType := some .success }
      | none =>
        let updatedRecords := sortDescBy periodSortKeyR (tempRecordData :: st1.attendanceRecords)
        { st1 with attendanceRecords := updatedRecords,
                   storage := some (encodeRecords updatedRecords),
                   message := some "Attendance saved successfully!",
                   messageType := some .success }

/-- Inputs on which `saveOrUpdateAttendance` does not take its early-return
error branch. -/
def validSaveInput (st : AppState) : Prop :=
  ∃ a, st.daysAttended = some a ∧ 0 < st.totalWorkingDays ∧ 0 ≤ a ∧
    a ≤ st.totalWorkingDays ∧ jsTrim st.periodName ≠ ""

/-! ## Yearly aggregation (`calculateYearlySummary`, App.jsx lines 312-345) -/

structure YearSummary where
  year : Nat
  totalWorkingDays : ℚ
  totalDaysAttended : ℚ
  yearlyPercentage : ℚ
deriving DecidableEq

/-- First-occurrence deduplication, the semantics of `[...new Set(l)]`. -/
def setDedupGo (seen : List Nat) : List Nat → List Nat
  | [] => []
  | x :: xs => if x ∈ seen then setDedupGo seen xs else x :: setDedupGo (x :: seen) xs

def setDedup (l : List Nat) : List Nat := setDedupGo [] l

def yearKey (y : Nat) : Int × Int := ((y : Int), 0)

/-- App.jsx lines 312-345: distinct timestamp years sorted descending, then
per-year sums and the rounded percentage (0 when the total is 0). -/
def calculateYearlySummary (records : List AttendanceRecord) : List YearSummary :=
  let years := sortDescBy yearKey (setDedup (records.map (fun r => r.timestamp.year)))
  years.map (fun year =>
    let recordsInYear := records.filter (fun r => r.timestamp.year = year)
    let totalWorkingDaysYear := (recordsInYear.map (fun r => r.totalWorkingDays)).sum
    let totalDaysAttendedYear := (recordsInYear.map (fun r => r.daysAttended)).sum
    let yearlyPercentage :=
      if 0 < totalWorkingDaysYear then round2 (totalDaysAttendedYear / totalWorkingDaysYear * 100)
      else 0
    { year := year, totalWorkingDays := totalWorkingDaysYear,
      totalDaysAttended := totalDaysAttendedYear, yearlyPercentage := yearlyPercentage })

/-! ## Concrete fixtures used by counterexamples and witnesses -/

def marchRec : AttendanceRecord :=
  { periodName := "March 2025", totalWorkingDays := 25, daysAttended := 20,
    extraHolidays := 0, attendancePercentage := 80, timestamp := ⟨2025, 100⟩, id := "rec-march" }

/-- Form state about to create a back-dated "January 2025" record while a
"March 2025" record (saved earlier) is already stored. -/
def janSaveState : AppState :=
  { periodName := "January 2025", totalWorkingDays := 26, daysAttended := some 20,
    extraHolidays := none, attendancePercentage := none,
    attendanceRecords := [marchRec], editingRecordId := none, recordToDelete := none,
    showDeleteConfirm := false, message := none, messageType := none,
    showAttendanceDisplayInButton := false, storage := none }

/-- Form state on a fully-attended record: days attended equals the total. -/
def fullFormState : AppState :=
  { periodName := "March 2025", totalWorkingDays := 25, daysAttended := some 25,
    extraHolidays := none, attendancePercentage := some 100,
    attendanceRecords := [marchRec], editingRecordId := some "rec-march",
    recordToDelete := none, showDeleteConfirm := false, message := none, messageType := none,
    showAttendanceDisplayInButton := false, storage := some (encodeRecords [marchRec]) }

/-- Edit mode pointing at an id that no stored record has. -/
def ghostEditState : AppState :=
  { periodName := "January 2025", totalWorkingDays := 26, daysAttended := some 20,
    extraHolidays := none, attendancePercentage := none,
    attendanceRecords := [marchRec], editingRecordId := some "ghost", recordToDelete := none,
    showDeleteConfirm := false, message := none, messageType := none,
    showAttendanceDisplayInButton := false, storage := none }

def exRec1 : AttendanceRecord :=
  { periodName := "March 2025", totalWorkingDays := 20, daysAttended := 18,
    extraHolidays := 0, attendancePercentage := 90, timestamp := ⟨2025, 10⟩, id := "e1" }

def exRec2 : AttendanceRecord :=
  { periodName := "April 2025", totalWorkingDays := 22, daysAttended := 20,
    extraHolidays := 0, attendancePercentage := round2 (20 / 22 * 100),
    timestamp := ⟨2025, 20⟩, id := "e2" }

/-! ## Calendar sanity checks for the `Date.getDay` embedding -/

example : dayOfWeek 2025 1 1 = 3 := by decide
example : dayOfWeek 1900 1 1 = 1 := by decide
example : dayOfWeek 2000 2 29 = 2 := by decide
example : dayOfWeek 2100 3 1 = 1 := by decide

/-! ## Claim C1 -/

theorem dayOfWeek_shift (y m d : Nat) (hd : 1 ≤ d) :
    dayOfWeek y m d = (dayOfWeek y m 1 + (d - 1)) % 7 := by
  unfold dayOfWeek
  dsimp only
  omega

theorem wdLoopGo_eq (m y : Nat) : ∀ n, wdLoopGo m y n = wdLoopGoW (dayOfWeek y m 1) n := by
  intro n
  induction n with
  | zero => rfl
  | succ n ih =>
    unfold wdLoopGo wdLoopGoW
    rw [ih, dayOfWeek_shift y m (n + 1) (by omega), Nat.add_sub_cancel]

theorem sundaysGo_eq (m y : Nat) : ∀ n, sundaysGo m y n = sundaysGoW (dayOfWeek y m 1) n := by
  intro n
  induction n with
  | zero => rfl
  | succ n ih =>
    unfold sundaysGo sundaysGoW
    rw [ih, dayOfWeek_shift y m (n + 1) (by omega), Nat.add_sub_cancel]

theorem saturdaysGo_eq (m y : Nat) :
    ∀ n, saturdaysGo m y n = saturdaysGoW (dayOfWeek y m 1) n := by
  intro n
  induction n with
  | zero => rfl
  | succ n ih =>
    unfold saturdaysGo saturdaysGoW
    rw [ih, dayOfWeek_shift y m (n + 1) (by omega), Nat.add_sub_cancel]

theorem daysInMonth_cases (m y : Nat) :
    daysInMonth m y = 28 ∨ daysInMonth m y = 29 ∨ daysInMonth m y = 30 ∨
      daysInMonth m y = 31 := by
  unfold daysInMonth
  split
  · split <;> simp
  · split <;> simp

theorem c1_cases : ∀ w1 < 7, ∀ dd < 4,
    (wdLoopGoW w1 (28 + dd)).1 = sundaysGoW w1 (28 + dd) + 1 ∧
    2 ≤ saturdaysGoW w1 (28 + dd) ∧ sundaysGoW w1 (28 + dd) + 1 < 28 + dd := by decide

/-- C1: for every month `m` in `[1,12]` and year `y` in `[1900,2100]`,
`calculateMonthlyWorkingDays m y 0` equals the number of days in the month
minus the number of Sundays in the month minus 1 when a second Saturday
exists (0 otherwise), and the result is never negative. -/
theorem c1_workingDays_formula (m y : Nat) (hm1 : 1 ≤ m) (hm2 : m ≤ 12)
    (hy1 : 1900 ≤ y) (hy2 : y ≤ 2100) :
    calculateMonthlyWorkingDays m y 0 =
      (daysInMonth m y : Int) - sundaysIn m y -
        (if secondSaturdayExists m y then 1 else 0) ∧
    0 ≤ calculateMonthlyWorkingDays m y 0 := by
  have hw : dayOfWeek y m 1 < 7 := by
    unfold dayOfWeek
    dsimp only
    omega
  have hDex : ∃ dd, dd < 4 ∧ daysInMonth m y = 28 + dd := by
    rcases daysInMonth_cases m y with h | h | h | h
    · exact ⟨0, by omega, by omega⟩
    · exact ⟨1, by omega, by omega⟩
    · exact ⟨2, by omega, by omega⟩
    · exact ⟨3, by omega, by omega⟩
  obtain ⟨dd, hdd, hDeq⟩ := hDex
  obtain ⟨hnw, hsat, hlt⟩ := c1_cases (dayOfWeek y m 1) hw dd hdd
  rw [← hDeq] at hnw hsat hlt
  have hss : secondSaturdayExists m y = true := by
    unfold secondSaturdayExists
    rw [saturdaysGo_eq]
    exact decide_eq_true hsat
  unfold calculateMonthlyWorkingDays sundaysIn
  dsimp only
  rw [wdLoopGo_eq, sundaysGo_eq, hss, hnw, if_pos rfl]
  constructor
  · split
    · push_cast
      omega
    · rename_i hneg
      push_cast at hneg
      omega
  · split
    · push_cast
      omega
    · omega

/-- Witness for C1 at March 2025. -/
theorem c1_workingDays_formula_witness :
    calculateMonthlyWorkingDays 3 2025 0 =
      (daysInMonth 3 2025 : Int) - sundaysIn 3 2025 -
        (if secondSaturdayExists 3 2025 then 1 else 0) ∧
    0 ≤ calculateMonthlyWorkingDays 3 2025 0 :=
  c1_workingDays_formula 3 2025 (by norm_num) (by norm_num) (by norm_num) (by norm_num)

/-! ## Claim C2 -/

/-- C2 counterexample: the claim asserts `workingDays(2,2025,0) == 24`, but
February 2025 has 28 days, 4 Sundays and a second Saturday (Feb 8), so the
code computes 23. -/
theorem c2_feb2025_counterexample :
    calculateMonthlyWorkingDays 2 2025 0 = 23 ∧
    calculateMonthlyWorkingDays 2 2025 0 ≠ 24 := by
  decide

/-- C2 (amended): `calculateMonthlyWorkingDays m y k` is monotonically
non-increasing in the extra-holidays argument `k` and is never negative, with
`workingDays(2,2025,0) = 23` (not 24 as the claim said) and
`workingDays(3,2025,0) = 25`. -/
theorem c2_monotone_floor (m y k k' : Nat) (hk : k ≤ k') :
    calculateMonthlyWorkingDays m y k' ≤ calculateMonthlyWorkingDays m y k ∧
    0 ≤ calculateMonthlyWorkingDays m y k ∧
    calculateMonthlyWorkingDays 2 2025 0 = 23 ∧
    calculateMonthlyWorkingDays 3 2025 0 = 25 := by
  refine ⟨?_, ?_, by decide, by decide⟩
  · unfold calculateMonthlyWorkingDays
    dsimp only
    split <;> split <;> omega
  · unfold calculateMonthlyWorkingDays
    dsimp only
    split <;> omega

/-- Witness for C2 at March 2025 with `k = 0 ≤ 5 = k'`. -/
theorem c2_monotone_floor_witness :
    calculateMonthlyWorkingDays 3 2025 5 ≤ calculateMonthlyWorkingDays 3 2025 0 ∧
    0 ≤ calculateMonthlyWorkingDays 3 2025 0 ∧
    calculateMonthlyWorkingDays 2 2025 0 = 23 ∧
    calculateMonthlyWorkingDays 3 2025 0 = 25 :=
  c2_monotone_floor 3 2025 0 5 (by norm_num)

/-! ## Parser lemmas -/

theorem isDigit_toNat {c : Char} (h : c.isDigit = true) : 48 ≤ c.toNat ∧ c.toNat ≤ 57 := by
  simp [Char.isDigit] at h
  obtain ⟨h1, h2⟩ := h
  exact ⟨h1, h2⟩

theorem toLower_of_isDigit {c : Char} (h : c.isDigit = true) : c.toLower = c := by
  obtain ⟨h1, h2⟩ := isDigit_toNat h
  unfold Char.toLower
  rw [if_neg]
  omega

theorem isJsSpace_of_isDigit {c : Char} (h : c.isDigit = true) : isJsSpace c = false := by
  obtain ⟨h1, h2⟩ := isDigit_toNat h
  simp [isJsSpace]
  omega

theorem char_beq_false_of_toNat_ne {a b : Char} (h : a.toNat ≠ b.toNat) : (a == b) = false := by
  cases hab : a == b
  · rfl
  · exact absurd (congrArg Char.toNat (eq_of_beq hab)) h

theorem letter_beq_digit_false {a c : Char} (ha : 97 ≤ a.toNat) (h : c.isDigit = true) :
    (a == c) = false := by
  obtain ⟨h1, h2⟩ := isDigit_toNat h
  exact char_beq_false_of_toNat_ne (by omega)

theorem matchTail_digits {d1 d2 d3 d4 : Char} (h1 : d1.isDigit = true) (h2 : d2.isDigit = true)
    (h3 : d3.isDigit = true) (h4 : d4.isDigit = true) :
    matchTail [d1, d2, d3, d4] = some (some [d1, d2, d3, d4]) := by
  unfold matchTail
  rw [List.dropWhile_cons_of_neg (by simp [isJsSpace_of_isDigit h1])]
  simp [h1, h2, h3, h4]

theorem findPeriodMatch_token_digits (t : String) (ht : t ∈ monthTokens)
    (d1 d2 d3 d4 : Char) (h1 : d1.isDigit = true) (h2 : d2.isDigit = true)
    (h3 : d3.isDigit = true) (h4 : d4.isDigit = true) :
    findPeriodMatch (t.data ++ [d1, d2, d3, d4]) = some (t, some [d1, d2, d3, d4]) := by
  have e1 := letter_beq_digit_false (a := 'u') (by decide) h1
  have e2 := letter_beq_digit_false (a := 'r') (by decide) h1
  have e3 := letter_beq_digit_false (a := 'c') (by decide) h1
  have e4 := letter_beq_digit_false (a := 'i') (by decide) h1
  have e5 := letter_beq_digit_false (a := 'e') (by decide) h1
  have e6 := letter_beq_digit_false (a := 'y') (by decide) h1
  have e7 := letter_beq_digit_false (a := 't') (by decide) h1
  have e8 := letter_beq_digit_false (a := 'o') (by decide) h1
  have ht' := matchTail_digits h1 h2 h3 h4
  fin_cases ht <;>
    simp_all [findPeriodMatch, monthTokens, List.findSome?, tryToken, List.isPrefixOf]

theorem jsToLower_token_digits (t : String) (ht : t ∈ monthTokens)
    (d1 d2 d3 d4 : Char) (h1 : d1.isDigit = true) (h2 : d2.isDigit = true)
    (h3 : d3.isDigit = true) (h4 : d4.isDigit = true) :
    jsToLower (String.mk (t.data ++ [d1, d2, d3, d4])) = t.data ++ [d1, d2, d3, d4] := by
  have l1 := toLower_of_isDigit h1
  have l2 := toLower_of_isDigit h2
  have l3 := toLower_of_isDigit h3
  have l4 := toLower_of_isDigit h4
  fin_cases ht <;> simp_all [jsToLower]

theorem codeMonth_bounds (t : String) (ht : t ∈ monthTokens) :
    1 ≤ codeMonth t ∧ codeMonth t ≤ 12 := by
  fin_cases ht <;> decide

theorem tryToken_eq_some {t : String} {cs : List Char} {r : String × Option (List Char)}
    (h : tryToken t cs = some r) :
    r.1 = t ∧ matchTail (cs.drop t.data.length) = some r.2 := by
  unfold tryToken at h
  split at h
  · rcases Option.map_eq_some'.mp h with ⟨y, hy, hr⟩
    subst hr
    exact ⟨rfl, hy⟩
  · exact absurd h (by simp)

theorem findPeriodMatch_token_mem {cs : List Char} {t : String} {ys : Option (List Char)}
    (h : findPeriodMatch cs = some (t, ys)) : t ∈ monthTokens := by
  obtain ⟨a, ha, hfa⟩ := List.exists_of_findSome?_eq_some h
  obtain ⟨h1, -⟩ := tryToken_eq_some hfa
  simpa [← h1] using ha

theorem parsePeriod_none_iff (s : String) (c : Nat) :
    parsePeriod s c = none ↔
      (findPeriodMatch (jsToLower s) = none ∨
        resolvedYear s c < 1900 ∨ 2100 < resolvedYear s c) := by
  unfold parsePeriod parsePeriodName resolvedYear
  cases h : findPeriodMatch (jsToLower s) with
  | none => simp
  | some r =>
    obtain ⟨t, ys⟩ := r
    obtain ⟨hc1, hc2⟩ := codeMonth_bounds t (findPeriodMatch_token_mem h)
    cases ys with
    | none =>
      simp only [h]
      constructor
      · intro hnone
        split at hnone
        · simp at hnone
        · rename_i hcond
          right
          omega
      · intro hor
        rcases hor with h' | h' | h'
        · simp at h'
        · rw [if_neg (by omega)]
        · rw [if_neg (by omega)]
    | some ds =>
      simp only [h]
      constructor
      · intro hnone
        split at hnone
        · simp at hnone
        · rename_i hcond
          right
          omega
      · intro hor
        rcases hor with h' | h' | h'
        · simp at h'
        · rw [if_neg (by omega)]
        · rw [if_neg (by omega)]

/-! ## Claim C3 -/

/-- C3 counterexample to the claim as stated: with current year `c = 2200`,
the input "mar" matches the month pattern and carries no 4-digit year, yet
the code reports Invalid — the defaulted current year is range-checked too,
so `parse("mar") = (month 3, year c)` fails for an out-of-range `c`. -/
theorem c3_current_year_counterexample :
    parsePeriod "mar" 2200 = none ∧ findPeriodMatch (jsToLower "mar") ≠ none := by
  decide

/-- C3 (amended): the parser is total (embedded as a total function) and
returns Invalid exactly when the input does not match the month-token pattern
or when the resolved year — the parsed 4-digit year, or the current-year
default when the year is missing — falls outside `[1900, 2100]`; an Invalid
parse surfaces as `totalWorkingDays = 0`. The examples hold as claimed, the
"mar" one for a current year inside `[1900, 2100]`. -/
theorem c3_parse_characterization (s : String) (c : Nat) :
    (parsePeriod s c = none ↔
      (findPeriodMatch (jsToLower s) = none ∨
        resolvedYear s c < 1900 ∨ 2100 < resolvedYear s c)) ∧
    (∀ eh : Option Nat, parsePeriod s c = none → recomputeTotalWorkingDays s eh c = 0) ∧
    parsePeriod "March 2025" c = some (3, 2025) ∧
    (1900 ≤ c → c ≤ 2100 → parsePeriod "mar" c = some (3, c)) ∧
    parsePeriod "Marchy 2025" c = none ∧
    parsePeriod "March 1899" c = none := by
  refine ⟨parsePeriod_none_iff s c, ?_, by rfl, ?_, by rfl, by rfl⟩
  · intro eh hnone
    unfold recomputeTotalWorkingDays
    rw [hnone]
  · intro hc1 hc2
    have hm : parsePeriodName "mar" c = ⟨some 3, c⟩ := rfl
    unfold parsePeriod
    rw [hm]
    simp [hc1, hc2]

/-- Witness for C3: the "mar" example at the in-range current year 2025. -/
theorem c3_parse_characterization_witness : parsePeriod "mar" 2025 = some (3, 2025) :=
  (c3_parse_characterization "mar" 2025).2.2.2.1 (by norm_num) (by norm_num)

/-! ## Claim C10 -/

/-- C10: the whitespace between the month token and the year is optional
(`\s*` also matches the empty string), so a month token immediately followed
by an in-range 4-digit year parses to that month and year. -/
theorem c10_no_space_period (t : String) (ht : t ∈ monthTokens)
    (d1 d2 d3 d4 : Char) (h1 : d1.isDigit = true) (h2 : d2.isDigit = true)
    (h3 : d3.isDigit = true) (h4 : d4.isDigit = true) (c : Nat)
    (hy1 : 1900 ≤ parseDigits [d1, d2, d3, d4]) (hy2 : parseDigits [d1, d2, d3, d4] ≤ 2100) :
    parsePeriod (String.mk (t.data ++ [d1, d2, d3, d4])) c =
      some (codeMonth t, parseDigits [d1, d2, d3, d4]) := by
  obtain ⟨hc1, hc2⟩ := codeMonth_bounds t ht
  unfold parsePeriod parsePeriodName
  rw [jsToLower_token_digits t ht d1 d2 d3 d4 h1 h2 h3 h4]
  rw [findPeriodMatch_token_digits t ht d1 d2 d3 d4 h1 h2 h3 h4]
  simp [hc1, hc2, hy1, hy2]
  omega

/-- Witness for C10: "march2025" parses to March 2025. -/
theorem c10_no_space_period_witness :
    parsePeriod (String.mk ("march".data ++ ['2', '0', '2', '5'])) 7 =
      some (codeMonth "march", parseDigits ['2', '0', '2', '5']) :=
  c10_no_space_period "march" (by decide) '2' '0' '2' '5' (by decide) (by decide) (by decide)
    (by decide) 7 (by decide) (by decide)

/-! ## Sorting lemmas -/

theorem lexLtB_asymm {a b : Int × Int} (h : lexLtB a b = true) : lexLtB b a = false := by
  simp [lexLtB] at h ⊢
  omega

theorem lexLtB_trans_aux {a b c : Int × Int} (h1 : lexLtB a b = true) (h2 : lexLtB a c = false) :
    lexLtB b c = false := by
  simp [lexLtB] at h1 h2 ⊢
  omega

theorem insertDescBy_perm {α : Type} (key : α → Int × Int) (x : α) (l : List α) :
    (insertDescBy key x l).Perm (x :: l) := by
  induction l with
  | nil => rfl
  | cons y ys ih =>
    unfold insertDescBy
    split
    · rfl
    · exact (ih.cons y).trans (List.Perm.swap x y ys)

theorem sortDescBy_perm {α : Type} (key : α → Int × Int) (l : List α) :
    (sortDescBy key l).Perm l := by
  induction l with
  | nil => rfl
  | cons x xs ih => exact (insertDescBy_perm key x (sortDescBy key xs)).trans (ih.cons x)

theorem insertDescBy_sorted {α : Type} (key : α → Int × Int) (x : α) (l : List α)
    (h : DescSortedBy key l) : DescSortedBy key (insertDescBy key x l) := by
  induction l with
  | nil => simp [insertDescBy, DescSortedBy]
  | cons y ys ih =>
    rcases List.pairwise_cons.mp h with ⟨hy, hys⟩
    unfold insertDescBy
    split
    · rename_i hlt
      refine List.pairwise_cons.mpr ⟨?_, h⟩
      intro z hz
      rcases List.mem_cons.mp hz with rfl | hz'
      · exact lexLtB_asymm hlt
      · exact lexLtB_trans_aux hlt (hy z hz')
    · rename_i hnlt
      refine List.pairwise_cons.mpr ⟨?_, ih hys⟩
      intro z hz
      rcases List.mem_cons.mp ((insertDescBy_perm key x ys).mem_iff.mp hz) with hzx | hz'
      · subst hzx
        exact Bool.eq_false_iff.mpr hnlt
      · exact hy z hz'

theorem sortDescBy_sorted {α : Type} (key : α → Int × Int) (l : List α) :
    DescSortedBy key (sortDescBy key l) := by
  induction l with
  | nil => exact List.Pairwise.nil
  | cons x xs ih => exact insertDescBy_sorted key x (sortDescBy key xs) ih

/-! ## Persistence lemmas -/

theorem asNat_natCast (n : Nat) : asNat (Json.num (n : ℚ)) = some n := by
  simp [asNat]

theorem decodeRecord_encodeRecord (r : AttendanceRecord) :
    decodeRecord (encodeRecord r) = some r := by
  obtain ⟨p, tw, da, eh, ap, ⟨ty, tsub⟩, i⟩ := r
  simp [encodeRecord, decodeRecord, lookupField, encodeTimestamp, decodeTimestamp, asNat_natCast]

theorem decodeRecords_encodeRecords (rs : List AttendanceRecord) :
    decodeRecords (encodeRecords rs) = some rs := by
  induction rs with
  | nil => rfl
  | cons r rs ih =>
    simp only [encodeRecords, decodeRecords, List.map_cons, List.mapM_cons,
      decodeRecord_encodeRecord] at ih ⊢
    simp_all [encodeRecords, decodeRecords]

/-! ## Claim C4 -/

/-- C4: `computePercentage` applies its three validation rules in source
order with the first failing rule winning, each rule carries a distinct
user-facing reason, success returns the percentage rounded to two decimals,
`calculateAttendance` leaves the stored collection and the persisted copy
untouched, and the four spec examples hold. -/
theorem c4_computePercentage_spec :
    (∀ t a, t ≤ 0 → computePercentage t a = .error .totalNotPositive) ∧
    (∀ t, 0 < t → computePercentage t none = .error .attendedInvalid) ∧
    (∀ t q, 0 < t → q < 0 → computePercentage t (some q) = .error .attendedInvalid) ∧
    (∀ t q, 0 < t → 0 ≤ q → t < q → computePercentage t (some q) = .error .attendedExceedsTotal) ∧
    (∀ t q, 0 < t → 0 ≤ q → q ≤ t → computePercentage t (some q) = .ok (round2 (q / t * 100))) ∧
    (attendanceErrorText .totalNotPositive ≠ attendanceErrorText .attendedInvalid ∧
      attendanceErrorText .totalNotPositive ≠ attendanceErrorText .attendedExceedsTotal ∧
      attendanceErrorText .attendedInvalid ≠ attendanceErrorText .attendedExceedsTotal) ∧
    (∀ st, (calculateAttendance st).attendanceRecords = st.attendanceRecords ∧
           (calculateAttendance st).storage = st.storage) ∧
    computePercentage 20 (some 18) = .ok 90 ∧
    computePercentage 0 (some 5) = .error .totalNotPositive ∧
    computePercentage 20 (some 25) = .error .attendedExceedsTotal ∧
    computePercentage 20 (some (-1)) = .error .attendedInvalid := by
  refine ⟨?_, ?_, ?_, ?_, ?_, ⟨by decide, by decide, by decide⟩, ?_, ?_, ?_, ?_, ?_⟩
  · intro t a ht
    unfold computePercentage
    rw [if_pos ht]
  · intro t ht
    unfold computePercentage
    rw [if_neg (not_le.mpr ht)]
  · intro t q ht hq
    unfold computePercentage
    rw [if_neg (not_le.mpr ht)]
    dsimp only
    rw [if_pos hq]
  · intro t q ht hq htq
    unfold computePercentage
    rw [if_neg (not_le.mpr ht)]
    dsimp only
    rw [if_neg (not_lt.mpr hq), if_pos htq]
  · intro t q ht hq htq
    unfold computePercentage
    rw [if_neg (not_le.mpr ht)]
    dsimp only
    rw [if_neg (not_lt.mpr hq), if_neg (not_lt.mpr htq)]
  · intro st
    unfold calculateAttendance
    cases computePercentage st.totalWorkingDays st.daysAttended <;> exact ⟨rfl, rfl⟩
  · have h : round2 ((18 : ℚ) / 20 * 100) = 90 := by norm_num [round2, round_eq]
    unfold computePercentage
    rw [if_neg (by norm_num)]
    dsimp only
    rw [if_neg (by norm_num), if_neg (by norm_num)]
    rw [h]
  · rfl
  · rfl
  · rfl

/-- Witness for C4: the `total ≤ 0` rule fires on `computePercentage 0 5`. -/
theorem c4_computePercentage_spec_witness :
    computePercentage 0 (some 5) = .error .totalNotPositive :=
  c4_computePercentage_spec.1 0 (some 5) (by norm_num)

/-! ## Claim C5 -/

/-- C5 counterexample: creating a back-dated "January 2025" record after a
"March 2025" record leaves the collection sorted by save timestamp
(January first), which violates the claimed descending (year, month)
period-name order. -/
theorem c5_period_order_counterexample :
    ¬ DescSortedBy periodSortKeyR
        (saveOrUpdateAttendance janSaveState ⟨2025, 200⟩ "rec-jan" "October 2025").attendanceRecords := by
  decide

/-- C5 (amended): in App.jsx, create and update re-sort the collection by
timestamp descending and persist exactly it, and delete (a filter) preserves
that order; the README variant's create/update sorts by the period-name
(year, month) key descending, with unparseable names keyed to the epoch. -/
theorem c5_ordering_amended :
    (∀ st now freshId todayLabel, validSaveInput st →
      DescSortedBy tsKeyR (saveOrUpdateAttendance st now freshId todayLabel).attendanceRecords ∧
      (saveOrUpdateAttendance st now freshId todayLabel).storage =
        some (encodeRecords (saveOrUpdateAttendance st now freshId todayLabel).attendanceRecords)) ∧
    (∀ st todayLabel, DescSortedBy tsKeyR st.attendanceRecords →
      DescSortedBy tsKeyR (confirmDelete st todayLabel).attendanceRecords) ∧
    (∀ st now freshId todayLabel, validSaveInput st →
      DescSortedBy periodSortKeyR
        (saveOrUpdateAttendanceReadme st now freshId todayLabel).attendanceRecords) := by
  refine ⟨?_, ?_, ?_⟩
  · rintro st now freshId todayLabel ⟨a, ha, h1, h2, h3, h4⟩
    unfold saveOrUpdateAttendance saveOrUpdateCore
    rw [ha]
    dsimp only
    rw [if_neg (by simp only [not_or]; exact ⟨not_le.mpr h1, not_lt.mpr h2, not_lt.mpr h3, h4⟩)]
    cases he : st.editingRecordId <;> exact ⟨sortDescBy_sorted _ _, rfl⟩
  · intro st todayLabel h
    unfold confirmDelete
    cases hr : st.recordToDelete
    · exact h
    · dsimp only
      split
      · exact List.Pairwise.filter _ h
      · exact List.Pairwise.filter _ h
  · rintro st now freshId todayLabel ⟨a, ha, h1, h2, h3, h4⟩
    unfold saveOrUpdateAttendanceReadme saveOrUpdateCore
    rw [ha]
    dsimp only
    rw [if_neg (by simp only [not_or]; exact ⟨not_le.mpr h1, not_lt.mpr h2, not_lt.mpr h3, h4⟩)]
    cases he : st.editingRecordId <;> exact sortDescBy_sorted _ _

/-- Witness for C5 (amended) on the concrete create of `janSaveState`. -/
theorem c5_ordering_amended_witness :
    DescSortedBy tsKeyR
      (saveOrUpdateAttendance janSaveState ⟨2025, 200⟩ "rec-jan" "October 2025").attendanceRecords :=
  (c5_ordering_amended.1 janSaveState ⟨2025, 200⟩ "rec-jan" "October 2025"
    ⟨20, rfl, by norm_num [janSaveState], by norm_num, by norm_num [janSaveState], by decide⟩).1

/-! ## Claim C6 -/

theorem setDedupGo_mem (y : Nat) : ∀ (l seen : List Nat),
    y ∈ setDedupGo seen l ↔ (y ∈ l ∧ y ∉ seen)
  | [], seen => by simp [setDedupGo]
  | x :: xs, seen => by
    by_cases hx : x ∈ seen
    · simp only [setDedupGo, if_pos hx, setDedupGo_mem y xs seen, List.mem_cons]
      constructor
      · exact fun ⟨h1, h2⟩ => ⟨Or.inr h1, h2⟩
      · rintro ⟨hy | hy, h2⟩
        · exact absurd (hy ▸ hx) h2
        · exact ⟨hy, h2⟩
    · simp only [setDedupGo, if_neg hx, List.mem_cons, setDedupGo_mem y xs (x :: seen)]
      constructor
      · rintro (rfl | ⟨h1, h2⟩)
        · exact ⟨Or.inl rfl, hx⟩
        · exact ⟨Or.inr h1, fun hs => h2 (Or.inr hs)⟩
      · rintro ⟨rfl | hy, h2⟩
        · exact Or.inl rfl
        · by_cases hyx : y = x
          · exact Or.inl hyx
          · exact Or.inr ⟨hy, by simp [List.mem_cons, hyx, h2]⟩

theorem setDedupGo_nodup : ∀ (l seen : List Nat), (setDedupGo seen l).Nodup
  | [], seen => by simp [setDedupGo]
  | x :: xs, seen => by
    by_cases hx : x ∈ seen
    · simpa [setDedupGo, if_pos hx] using setDedupGo_nodup xs seen
    · simp only [setDedupGo, if_neg hx]
      refine List.nodup_cons.mpr ⟨?_, setDedupGo_nodup xs (x :: seen)⟩
      intro hmem
      exact ((setDedupGo_mem x xs (x :: seen)).mp hmem).2 (List.mem_cons_self x seen)

theorem setDedup_mem (y : Nat) (l : List Nat) : y ∈ setDedup l ↔ y ∈ l := by
  simp [setDedup, setDedupGo_mem]

theorem setDedup_nodup (l : List Nat) : (setDedup l).Nodup := setDedupGo_nodup l []

/-- C6: `calculateYearlySummary` groups records by the calendar year of the
timestamp, sums the totals of each group, sets the percentage to the rounded
quotient when the working-day total is positive and to 0 otherwise, returns
the years in strictly descending order covering exactly the years present,
and satisfies the two spec examples (`summarize([]) = []`, and two records
of one year with 20/18 and 22/20 roll up to 42, 38, 90.48). -/
theorem c6_yearly_summary :
    (∀ records : List AttendanceRecord,
      List.Pairwise (fun e1 e2 => e2.year < e1.year) (calculateYearlySummary records) ∧
      (∀ y, (∃ e ∈ calculateYearlySummary records, e.year = y) ↔
        ∃ r ∈ records, r.timestamp.year = y) ∧
      (∀ e ∈ calculateYearlySummary records,
        e.totalWorkingDays =
          ((records.filter (fun r => r.timestamp.year = e.year)).map
            (fun r => r.totalWorkingDays)).sum ∧
        e.totalDaysAttended =
          ((records.filter (fun r => r.timestamp.year = e.year)).map
            (fun r => r.daysAttended)).sum ∧
        e.yearlyPercentage =
          (if 0 < e.totalWorkingDays then
            round2 (e.totalDaysAttended / e.totalWorkingDays * 100) else 0))) ∧
    calculateYearlySummary [] = [] ∧
    calculateYearlySummary [exRec1, exRec2] =
      [{ year := 2025, totalWorkingDays := 42, totalDaysAttended := 38,
         yearlyPercentage := 9048 / 100 }] := by
  refine ⟨?_, rfl, ?_⟩
  · intro records
    refine ⟨?_, ?_, ?_⟩
    · unfold calculateYearlySummary
      dsimp only
      rw [List.pairwise_map]
      have hs := sortDescBy_sorted yearKey (setDedup (records.map (fun r => r.timestamp.year)))
      have hn : (sortDescBy yearKey (setDedup (records.map (fun r => r.timestamp.year)))).Nodup :=
        ((sortDescBy_perm yearKey _).nodup_iff).mpr (setDedup_nodup _)
      refine (hs.and hn).imp ?_
      rintro y1 y2 ⟨hle, hne⟩
      simp only [lexLtB, yearKey, decide_eq_false_iff_not, not_or, not_and, not_lt] at hle
      have hne' : y1 ≠ y2 := hne
      show y2 < y1
      omega
    · intro y
      unfold calculateYearlySummary
      dsimp only
      constructor
      · rintro ⟨e, he, hey⟩
        obtain ⟨z, hz, rfl⟩ := List.mem_map.mp he
        have hz' : z ∈ setDedup (records.map (fun r => r.timestamp.year)) :=
          (sortDescBy_perm yearKey _).mem_iff.mp hz
        have hz'' : z ∈ records.map (fun r => r.timestamp.year) := (setDedup_mem _ _).mp hz'
        obtain ⟨r, hr, hrz⟩ := List.mem_map.mp hz''
        exact ⟨r, hr, by rw [hrz]; exact hey⟩
      · rintro ⟨r, hr, hry⟩
        have hy1 : y ∈ records.map (fun r => r.timestamp.year) :=
          List.mem_map.mpr ⟨r, hr, hry⟩
        have hy2 : y ∈ sortDescBy yearKey (setDedup (records.map (fun r => r.timestamp.year))) :=
          (sortDescBy_perm yearKey _).mem_iff.mpr ((setDedup_mem _ _).mpr hy1)
        exact ⟨_, List.mem_map.mpr ⟨y, hy2, rfl⟩, rfl⟩
    · intro e he
      unfold calculateYearlySummary at he
      obtain ⟨z, hz, rfl⟩ := List.mem_map.mp he
      exact ⟨rfl, rfl, rfl⟩
  · have hy : sortDescBy yearKey
        (setDedup ([exRec1, exRec2].map (fun r => r.timestamp.year))) = [2025] := by decide
    unfold calculateYearlySummary
    rw [hy]
    simp only [List.map_cons, List.map_nil, List.filter, exRec1, exRec2]
    norm_num [List.sum_cons, round2, round_eq]

/-- Witness for C6: the year 2025 appears in the summary of `[exRec1]`. -/
theorem c6_yearly_summary_witness :
    ∃ e ∈ calculateYearlySummary [exRec1], e.year = 2025 :=
  ((c6_yearly_summary.1 [exRec1]).2.1 2025).mpr ⟨exRec1, List.mem_cons_self exRec1 [], rfl⟩

/-! ## Claim C7 -/

/-- C7: when the form's days attended already equal the total working days,
`handlePlusOne` rejects the increment before any mutation: the record list,
the persisted copy, the attended-days field, the percentage and the active
record id are all unchanged, and an error message is surfaced. -/
theorem c7_increment_blocked (st : AppState) (now : Timestamp) (freshId : String) (q : ℚ)
    (hda : st.daysAttended = some q) (htotal : st.totalWorkingDays = q) :
    (handlePlusOne st now freshId).attendanceRecords = st.attendanceRecords ∧
    (handlePlusOne st now freshId).storage = st.storage ∧
    (handlePlusOne st now freshId).daysAttended = st.daysAttended ∧
    (handlePlusOne st now freshId).attendancePercentage = st.attendancePercentage ∧
    (handlePlusOne st now freshId).editingRecordId = st.editingRecordId ∧
    (handlePlusOne st now freshId).messageType = some .error := by
  have hcond : st.totalWorkingDays < q + 1 := by rw [htotal]; linarith
  unfold handlePlusOne
  rw [hda]
  dsimp only
  rw [if_pos hcond]
  exact ⟨rfl, rfl, rfl, rfl, rfl, rfl⟩

/-- Witness for C7 on a concrete fully-attended record (25 of 25 days). -/
theorem c7_increment_blocked_witness :
    (handlePlusOne fullFormState ⟨2025, 300⟩ "fid").attendanceRecords =
      fullFormState.attendanceRecords ∧
    (handlePlusOne fullFormState ⟨2025, 300⟩ "fid").storage = fullFormState.storage ∧
    (handlePlusOne fullFormState ⟨2025, 300⟩ "fid").daysAttended = fullFormState.daysAttended ∧
    (handlePlusOne fullFormState ⟨2025, 300⟩ "fid").attendancePercentage =
      fullFormState.attendancePercentage ∧
    (handlePlusOne fullFormState ⟨2025, 300⟩ "fid").editingRecordId =
      fullFormState.editingRecordId ∧
    (handlePlusOne fullFormState ⟨2025, 300⟩ "fid").messageType = some .error :=
  c7_increment_blocked fullFormState ⟨2025, 300⟩ "fid" 25 rfl rfl

/-! ## Claim C8 -/

/-- C8: a valid create persists the full sorted collection, deserializing the
persisted copy yields that collection back unchanged (persistence is lossless
for the record schema), and the collection contains a record with the fresh
id whose every field equals the created draft's values. -/
theorem c8_save_load_roundtrip (st : AppState) (now : Timestamp) (freshId todayLabel : String)
    (a : ℚ) (hda : st.daysAttended = some a) (h1 : 0 < st.totalWorkingDays) (h2 : 0 ≤ a)
    (h3 : a ≤ st.totalWorkingDays) (h4 : jsTrim st.periodName ≠ "")
    (hnew : st.editingRecordId = none) :
    (saveOrUpdateAttendance st now freshId todayLabel).storage =
      some (encodeRecords (saveOrUpdateAttendance st now freshId todayLabel).attendanceRecords) ∧
    decodeRecords
        (encodeRecords (saveOrUpdateAttendance st now freshId todayLabel).attendanceRecords) =
      some (saveOrUpdateAttendance st now freshId todayLabel).attendanceRecords ∧
    ({ periodName := jsTrim st.periodName,
       totalWorkingDays := st.totalWorkingDays,
       daysAttended := a,
       extraHolidays := ((st.extraHolidays.getD 0 : Nat) : ℚ),
       attendancePercentage := round2 (a / st.totalWorkingDays * 100),
       timestamp := now,
       id := freshId } : AttendanceRecord) ∈
      (saveOrUpdateAttendance st now freshId todayLabel).attendanceRecords := by
  unfold saveOrUpdateAttendance saveOrUpdateCore
  rw [hda]
  dsimp only
  rw [if_neg (by simp only [not_or]; exact ⟨not_le.mpr h1, not_lt.mpr h2, not_lt.mpr h3, h4⟩)]
  rw [hnew]
  dsimp only
  refine ⟨rfl, decodeRecords_encodeRecords _, ?_⟩
  exact (sortDescBy_perm _ _).mem_iff.mpr (List.mem_cons_self _ _)

/-- Witness for C8 on the concrete create of `janSaveState`. -/
theorem c8_save_load_roundtrip_witness :
    (saveOrUpdateAttendance janSaveState ⟨2025, 200⟩ "rec-jan" "October 2025").storage =
      some (encodeRecords
        (saveOrUpdateAttendance janSaveState ⟨2025, 200⟩ "rec-jan" "October 2025").attendanceRecords) ∧
    decodeRecords (encodeRecords
        (saveOrUpdateAttendance janSaveState ⟨2025, 200⟩ "rec-jan" "October 2025").attendanceRecords) =
      some (saveOrUpdateAttendance janSaveState ⟨2025, 200⟩ "rec-jan" "October 2025").attendanceRecords ∧
    ({ periodName := jsTrim janSaveState.periodName,
       totalWorkingDays := janSaveState.totalWorkingDays,
       daysAttended := 20,
       extraHolidays := ((janSaveState.extraHolidays.getD 0 : Nat) : ℚ),
       attendancePercentage := round2 ((20 : ℚ) / janSaveState.totalWorkingDays * 100),
       timestamp := ⟨2025, 200⟩,
       id := "rec-jan" } : AttendanceRecord) ∈
      (saveOrUpdateAttendance janSaveState ⟨2025, 200⟩ "rec-jan" "October 2025").attendanceRecords :=
  c8_save_load_roundtrip janSaveState ⟨2025, 200⟩ "rec-jan" "October 2025" 20 rfl
    (by norm_num [janSaveState]) (by norm_num) (by norm_num [janSaveState]) (by decide) rfl

/-! ## Claim C9 -/

/-- C9: updating with an editing id that no stored record carries leaves the
collection's membership unchanged — nothing is inserted and no record is
modified (the result is a permutation of the previous collection) — while
the operation still reports the update success message. -/
theorem c9_update_missing_id (st : AppState) (now : Timestamp) (freshId todayLabel eid : String)
    (hvalid : validSaveInput st) (hedit : st.editingRecordId = some eid)
    (hmiss : ∀ r ∈ st.attendanceRecords, r.id ≠ eid) :
    (saveOrUpdateAttendance st now freshId todayLabel).attendanceRecords.Perm
      st.attendanceRecords ∧
    (saveOrUpdateAttendance st now freshId todayLabel).message =
      some "Record updated successfully!" ∧
    (saveOrUpdateAttendance st now freshId todayLabel).messageType = some .success := by
  obtain ⟨a, ha, h1, h2, h3, h4⟩ := hvalid
  have hmap : st.attendanceRecords.map
      (fun rec => if rec.id = eid then
        ({ periodName := jsTrim st.periodName,
           totalWorkingDays := st.totalWorkingDays,
           daysAttended := a,
           extraHolidays := ((st.extraHolidays.getD 0 : Nat) : ℚ),
           attendancePercentage := round2 (a / st.totalWorkingDays * 100),
           timestamp := now,
           id := (st.editingRecordId).getD freshId } : AttendanceRecord) else rec) =
      st.attendanceRecords := by
    conv_rhs => rw [← List.map_id st.attendanceRecords]
    apply List.map_congr_left
    intro r hr
    rw [if_neg (hmiss r hr)]
    rfl
  unfold saveOrUpdateAttendance saveOrUpdateCore
  rw [ha]
  dsimp only
  rw [if_neg (by simp only [not_or]; exact ⟨not_le.mpr h1, not_lt.mpr h2, not_lt.mpr h3, h4⟩)]
  rw [hedit]
  dsimp only
  rw [hedit] at hmap
  rw [hmap]
  exact ⟨sortDescBy_perm _ _, rfl, rfl⟩

/-- Witness for C9 on a concrete state whose editing id "ghost" matches no
stored record. -/
theorem c9_update_missing_id_witness :
    (saveOrUpdateAttendance ghostEditState ⟨2025, 200⟩ "rec-jan" "October 2025").attendanceRecords.Perm
      ghostEditState.attendanceRecords ∧
    (saveOrUpdateAttendance ghostEditState ⟨2025, 200⟩ "rec-jan" "October 2025").message =
      some "Record updated successfully!" ∧
    (saveOrUpdateAttendance ghostEditState ⟨2025, 200⟩ "rec-jan" "October 2025").messageType =
      some .success :=
  c9_update_missing_id ghostEditState ⟨2025, 200⟩ "rec-jan" "October 2025" "ghost"
    ⟨20, rfl, by norm_num [ghostEditState], by norm_num, by norm_num [ghostEditState],
      by decide⟩ rfl (by decide)
